import Mathlib

/-!
Shallow embedding of the "rate your teacher" REST backend (`src/server(1).js`).

The server is an Express/Mongoose application whose state lives in eight
MongoDB collections.  We embed the persistent state as a `DB` structure of
lists, and each HTTP handler as a function `DB → … → Resp α × DB` returning
the JSON-level response together with the post-state.  Handlers that perform
no writes return the state unchanged, so frame properties are statable.

Modelling conventions, uniform across all handlers:
* Mongo `ObjectId`s are `Nat`; fresh ids come from a monotone `nextId`
  counter in `DB` (bumped on every handler call that may create a document).
* JS numbers are embedded as exact rationals (`Rat`); the spec treats the
  stored average as a real number with no rounding.
* `Model.findOne(q)` / `Model.findById(id)` are `List.find?` with the
  query predicate; `doc.save()` after mutating a found document writes back
  to the found document's position, i.e. replaces the first match of the
  query that found it; `findByIdAndUpdate` / `findByIdAndDelete` act on the
  document with the given id (ids are unique in the store, so deletion is
  embedded as filtering the id out).
* Timestamps (`createdAt` / `updatedAt`) are `Nat` and only kept on
  `Review`, where a handler reads or writes them; handlers that stamp a
  time take it as an explicit `now` argument.
* The auth middlewares only resolve the caller; handlers receive the
  resolved caller id (`uid`) directly.
* Mongoose validation of `RatingSchema`'s `min: 1, max: 5` bound runs at
  `create`/`save`; a validation failure throws, which the handler's `catch`
  turns into a 400 response with the store unchanged.
-/

namespace Server

/-- UserSchema (src lines 62-69): username, password hash, optional school
and class references, setup flag. -/
structure User where
  id : Nat
  username : String
  password : String
  school : Option Nat
  «class» : Option Nat
  isSetup : Bool
deriving DecidableEq, Repr

/-- SchoolSchema (src lines 71-74). -/
structure School where
  id : Nat
  name : String
deriving DecidableEq, Repr

/-- ClassSchema (src lines 76-80): name and required school reference. -/
structure Class where
  id : Nat
  name : String
  school : Nat
deriving DecidableEq, Repr

/-- TeacherSchema (src lines 82-91): the denormalized `averageRating`
(default 0) and `totalRatings` (default 0) live on the teacher document. -/
structure Teacher where
  id : Nat
  name : String
  qualifications : String
  imageUrl : String
  «class» : Nat
  school : Nat
  averageRating : Rat
  totalRatings : Nat
deriving DecidableEq, Repr

/-- ReviewSchema (src lines 93-100): teacher and user references, the
denormalized username snapshot, free text, and both timestamps. -/
structure Review where
  id : Nat
  teacher : Nat
  user : Nat
  username : String
  text : String
  createdAt : Nat
  updatedAt : Nat
deriving DecidableEq, Repr

/-- RatingSchema (src lines 102-107): teacher and user references and the
rating value, declared `type: Number, min: 1, max: 5` (a numeric range
bound only — mongoose does not require the number to be an integer). -/
structure Rating where
  id : Nat
  teacher : Nat
  user : Nat
  rating : Rat
deriving DecidableEq, Repr

/-- DiscussionSchema (src lines 109-115). -/
structure Discussion where
  id : Nat
  user : Nat
  username : String
  message : String
  isPinned : Bool
deriving DecidableEq, Repr

/-- AdminConfigSchema (src lines 117-121): the two moderation flags.  The
hashed admin secret is opaque to every claim and is omitted. -/
structure AdminConfig where
  anonymousReviews : Bool
  hideTeacherImages : Bool
deriving DecidableEq, Repr

/-- The persistent store: one list per collection, the singleton admin
config (created at process start, src lines 134-145), and the fresh-id
counter. -/
structure DB where
  users : List User
  schools : List School
  classes : List Class
  teachers : List Teacher
  reviews : List Review
  ratings : List Rating
  discussions : List Discussion
  config : AdminConfig
  nextId : Nat
deriving DecidableEq, Repr

/-- An HTTP response: `ok` carries the JSON payload of a 200 response,
`err` carries the status code and the `{error: message}` body. -/
inductive Resp (α : Type) where
  | ok : α → Resp α
  | err : Nat → String → Resp α
deriving DecidableEq, Repr

/-! ## Rating upsert and aggregate recompute (POST /api/teachers/:teacherId/ratings) -/

/-- The mongoose validity condition of RatingSchema's `min: 1, max: 5`
bound on the rating value (src line 105). -/
def ratingValid (v : Rat) : Prop := 1 ≤ v ∧ v ≤ 5

instance (v : Rat) : Decidable (ratingValid v) := instDecidableAnd

/-- Upsert of the caller's rating (src lines 405-419): `Rating.findOne`
on the (teacher, user) pair, then either mutate-and-save the found
document in place or `Rating.create` a fresh one.  Returns the saved
document together with the updated collection. -/
def upsertRating (rs : List Rating) (tid uid : Nat) (v : Rat) (nid : Nat) :
    Rating × List Rating :=
  match rs with
  | [] =>
    let created : Rating := ⟨nid, tid, uid, v⟩
    (created, [created])
  | r :: rest =>
    if r.teacher == tid && r.user == uid then
      let saved : Rating := { r with rating := v }
      (saved, saved :: rest)
    else
      let step := upsertRating rest tid uid v nid
      (step.1, r :: step.2)

/-- `Teacher.findByIdAndUpdate(teacherId, {averageRating, totalRatings})`
(src lines 425-428): rewrite the two aggregate fields of the document with
the given id, leaving everything else in place. -/
def findByIdAndUpdateTeacher (ts : List Teacher) (tid : Nat) (avg : Rat)
    (total : Nat) : List Teacher :=
  match ts with
  | [] => []
  | t :: rest =>
    if t.id == tid then
      { t with averageRating := avg, totalRatings := total } :: rest
    else
      t :: findByIdAndUpdateTeacher rest tid avg total

/-- POST /api/teachers/:teacherId/ratings (src lines 401-434): upsert the
caller's rating, re-read all ratings of the teacher, recompute
`averageRating = sum / count` and `totalRatings = count`, persist both on
the teacher, and respond with the saved rating document.  A rating value
violating the schema bound makes `create`/`save` throw, which the catch
block turns into a 400 with the store untouched. -/
def postRating (db : DB) (uid tid : Nat) (v : Rat) : Resp Rating × DB :=
  if ratingValid v then
    let up := upsertRating db.ratings tid uid v db.nextId
    let ratings1 := up.2
    let rs := ratings1.filter (fun r => r.teacher == tid)
    let avgRating : Rat := ((rs.map (fun r => r.rating)).foldl (· + ·) 0) / (rs.length : Rat)
    { fst := .ok up.1
      snd := { db with
                ratings := ratings1
                teachers := findByIdAndUpdateTeacher db.teachers tid avgRating rs.length
                nextId := db.nextId + 1 } }
  else
    (.err 400 "Rating validation failed", db)

/-- Spec-side definition (§4.5, §8): the exact arithmetic mean of a list of
values, `sum / count`, with no rounding. -/
def exactMean (xs : List Rat) : Rat := xs.sum / (xs.length : Rat)

/-- Spec-side view of the store: the rating values currently recorded for
a teacher. -/
def teacherRatingValues (db : DB) (tid : Nat) : List Rat :=
  (db.ratings.filter (fun r => r.teacher == tid)).map (fun r => r.rating)

/-- The ratings stored for one (teacher, user) pair. -/
def pairRatings (db : DB) (tid uid : Nat) : List Rating :=
  db.ratings.filter (fun r => r.teacher == tid && r.user == uid)

/-! ## User setup (POST /api/setup) -/

/-- Write-back of a mutated user document (`user.save()`): replace the
document with the caller's id. -/
def saveUser (us : List User) (uid : Nat) (u' : User) : List User :=
  match us with
  | [] => []
  | u :: rest => if u.id == uid then u' :: rest else u :: saveUser rest uid u'

/-- POST /api/setup (src lines 223-241): refetch the caller, reject with a
400 business error if `isSetup` is already true, otherwise set the school
and class references and the flag and save.  A missing user makes the
property access throw, caught as a 400. -/
def postSetup (db : DB) (uid sid cid : Nat) : Resp String × DB :=
  match db.users.find? (fun u => u.id == uid) with
  | none => (.err 400 "Cannot read properties of null", db)
  | some user =>
    if user.isSetup then
      (.err 400 "Setup already completed", db)
    else
      let user' : User :=
        { user with school := some sid, «class» := some cid, isSetup := true }
      (.ok "Setup completed successfully", { db with users := saveUser db.users uid user' })

/-! ## Teacher reads (GET /api/teachers, GET /api/teachers/:teacherId) -/

/-- GET /api/teachers (src lines 263-286): requires completed setup,
filters teachers to the caller's class, and blanks each `imageUrl` in the
response copy when the freshly read `hideTeacherImages` flag is on.  The
stored documents are untouched. -/
def getTeachers (db : DB) (uid : Nat) : Resp (List Teacher) × DB :=
  match db.users.find? (fun u => u.id == uid) with
  | none => (.err 400 "Cannot read properties of null", db)
  | some user =>
    if !user.isSetup then
      (.err 400 "Please complete setup first", db)
    else
      let teachers := db.teachers.filter (fun t => some t.«class» == user.«class»)
      let teachersData :=
        if db.config.hideTeacherImages then
          teachers.map (fun t => { t with imageUrl := "" })
        else
          teachers
      (.ok teachersData, db)

/-- GET /api/teachers/:teacherId (src lines 288-305): 404 when absent,
otherwise the document with `imageUrl` blanked in the response copy when
`hideTeacherImages` is on. -/
def getTeacherById (db : DB) (tid : Nat) : Resp Teacher × DB :=
  match db.teachers.find? (fun t => t.id == tid) with
  | none => (.err 404 "Teacher not found", db)
  | some teacher =>
    let teacherObj :=
      if db.config.hideTeacherImages then { teacher with imageUrl := "" } else teacher
    (.ok teacherObj, db)

/-! ## Review routes -/

/-- Stable insertion of a review into a list sorted by `createdAt`
descending; embeds the createdAt-descending sort query modifier. -/
def insertByCreatedAtDesc (r : Review) : List Review → List Review
  | [] => [r]
  | x :: xs =>
    if r.createdAt ≤ x.createdAt then x :: insertByCreatedAtDesc r xs else r :: x :: xs

/-- Sort reviews by `createdAt` descending. -/
def sortByCreatedAtDesc : List Review → List Review
  | [] => []
  | x :: xs => insertByCreatedAtDesc x (sortByCreatedAtDesc xs)

/-- GET /api/teachers/:teacherId/reviews (src lines 308-328): newest 50
reviews of the teacher; when `anonymousReviews` is on, each response copy
gets the fixed username `"Anonymous"`.  Stored documents are untouched. -/
def getReviews (db : DB) (tid : Nat) : Resp (List Review) × DB :=
  let reviews := (sortByCreatedAtDesc (db.reviews.filter (fun r => r.teacher == tid))).take 50
  let out :=
    if db.config.anonymousReviews then
      reviews.map (fun r => { r with username := "Anonymous" })
    else
      reviews
  (.ok out, db)

/-- GET /api/teachers/:teacherId/my-review (src lines 330-340): the
caller's own review of the teacher, or `null`; the stored document is
returned as is — no moderation transform is applied on this route. -/
def getMyReview (db : DB) (uid tid : Nat) : Resp (Option Review) × DB :=
  (.ok (db.reviews.find? (fun r => r.teacher == tid && r.user == uid)), db)

/-- POST /api/teachers/:teacherId/reviews (src lines 342-367): reject with
400 when a review by the caller for this teacher already exists, otherwise
create one carrying a snapshot of the caller's username.  The created
document is returned as is — no moderation transform on this route. -/
def postReview (db : DB) (uid tid : Nat) (text : String) (now : Nat) :
    Resp Review × DB :=
  match db.users.find? (fun u => u.id == uid) with
  | none => (.err 400 "Cannot read properties of null", db)
  | some user =>
    match db.reviews.find? (fun r => r.teacher == tid && r.user == uid) with
    | some _ => (.err 400 "You have already reviewed this teacher", db)
    | none =>
      let review : Review :=
        ⟨db.nextId, tid, uid, user.username, text, now, now⟩
      (.ok review, { db with reviews := db.reviews ++ [review], nextId := db.nextId + 1 })

/-- Write-back of a mutated review (`review.save()` after the owner-scoped
`findOne`): update text and `updatedAt` of the found document. -/
def saveReview (rs : List Review) (rid uid : Nat) (text : String) (now : Nat) :
    List Review :=
  match rs with
  | [] => []
  | r :: rest =>
    if r.id == rid && r.user == uid then
      { r with text := text, updatedAt := now } :: rest
    else
      r :: saveReview rest rid uid text now

/-- PUT /api/reviews/:reviewId (src lines 369-386): owner-scoped lookup
(`findOne` on the review id and caller id together); 404 when the caller
does not own such a review, otherwise update only text and `updatedAt`. -/
def putReview (db : DB) (uid rid : Nat) (text : String) (now : Nat) :
    Resp Review × DB :=
  match db.reviews.find? (fun r => r.id == rid && r.user == uid) with
  | none => (.err 404 "Review not found", db)
  | some r0 =>
    ({ fst := .ok { r0 with text := text, updatedAt := now }
       snd := { db with reviews := saveReview db.reviews rid uid text now } })

/-! ## Admin config (PUT /api/admin/config) -/

/-- PUT /api/admin/config (src lines 514-534): partial update of the two
moderation flags on the singleton config document; an absent body field
leaves the stored flag as it was. -/
def putAdminConfig (db : DB) (anonymousReviews? hideTeacherImages? : Option Bool) :
    Resp (Bool × Bool) × DB :=
  let c := db.config
  let c' : AdminConfig :=
    { anonymousReviews := anonymousReviews?.getD c.anonymousReviews
      hideTeacherImages := hideTeacherImages?.getD c.hideTeacherImages }
  (.ok (c'.anonymousReviews, c'.hideTeacherImages), { db with config := c' })

/-! ## Admin cascading deletes -/

/-- DELETE /api/admin/schools/:schoolId (src lines 563-572): delete the
school document, then every class and every teacher whose `school`
reference is the deleted id.  Reviews and ratings are not touched. -/
def deleteSchool (db : DB) (sid : Nat) : Resp String × DB :=
  ({ fst := .ok "School deleted successfully"
     snd := { db with
               schools := db.schools.filter (fun s => s.id != sid)
               classes := db.classes.filter (fun c => c.school != sid)
               teachers := db.teachers.filter (fun t => t.school != sid) } })

/-- DELETE /api/admin/users/:userId (src lines 684-694): delete the user
document and that user's reviews, ratings, and discussion posts.  Teacher
documents — including their denormalized aggregates — are not touched. -/
def deleteUser (db : DB) (uid : Nat) : Resp String × DB :=
  ({ fst := .ok "User deleted successfully"
     snd := { db with
               users := db.users.filter (fun u => u.id != uid)
               reviews := db.reviews.filter (fun r => r.user != uid)
               ratings := db.ratings.filter (fun r => r.user != uid)
               discussions := db.discussions.filter (fun d => d.user != uid) } })

/-! ## Concrete example states used by witnesses and counterexamples -/

/-- A non-integer rating value, 7/2. -/
def sevenHalves : Rat := ⟨7, 2, by norm_num, by norm_num [Nat.Coprime]⟩

/-- A base store: three set-up users (ids 1, 2, 3), one school (20), one
class (21), one teacher (10) with default aggregates, both moderation
flags off. -/
def baseDb : DB :=
  { users :=
      [⟨1, "alice", "h1", some 20, some 21, true⟩,
       ⟨2, "bob", "h2", some 20, some 21, true⟩,
       ⟨3, "carol", "h3", some 20, some 21, true⟩]
    schools := [⟨20, "Central"⟩]
    classes := [⟨21, "9A", 20⟩]
    teachers := [⟨10, "Turing", "PhD", "http://img/turing.png", 21, 20, 0, 0⟩]
    reviews := []
    ratings := []
    discussions := []
    config := ⟨false, false⟩
    nextId := 100 }

/-- The store after users 1, 2, 3 submit the rating values 5, 3, 4 for
teacher 10. -/
def ratedDb : DB :=
  (postRating (postRating (postRating baseDb 1 10 5).2 2 10 3).2 3 10 4).2

/-- The store after users 1 and 2 submit the rating values 5 and 3 for
teacher 10 (stored aggregates: average 4, total 2). -/
def ratedDb2 : DB :=
  (postRating (postRating baseDb 1 10 5).2 2 10 3).2

/-- A store with one stored review by user 1 on teacher 10 and anonymized
reviews switched on. -/
def anonDb : DB :=
  { baseDb with
      reviews := [⟨50, 10, 1, "alice", "great teacher", 7, 7⟩]
      config := ⟨true, false⟩ }

/-- A store with one not-yet-set-up user (id 4). -/
def freshUserDb : DB :=
  { baseDb with users := ⟨4, "dave", "h4", none, none, false⟩ :: baseDb.users }

/-! # Helper lemmas -/

theorem foldl_add_eq (a : Rat) (l : List Rat) : l.foldl (· + ·) a = a + l.sum := by
  induction l generalizing a with
  | nil => simp
  | cons x xs ih => simp [ih, add_assoc]

theorem upsertRating_saved (rs : List Rating) (tid uid : Nat) (v : Rat) (nid : Nat) :
    (upsertRating rs tid uid v nid).1 ∈ (upsertRating rs tid uid v nid).2 ∧
    (upsertRating rs tid uid v nid).1.teacher = tid ∧
    (upsertRating rs tid uid v nid).1.user = uid ∧
    (upsertRating rs tid uid v nid).1.rating = v := by
  induction rs with
  | nil => simp [upsertRating]
  | cons r rest ih =>
    cases hc : (r.teacher == tid && r.user == uid) with
    | true =>
      have h1 : r.teacher = tid ∧ r.user = uid := by simpa using hc
      simp [upsertRating, hc, h1.1, h1.2]
    | false =>
      simp only [upsertRating, hc, Bool.false_eq_true, if_false]
      exact ⟨List.mem_cons_of_mem _ ih.1, ih.2⟩

theorem find?_findByIdAndUpdateTeacher (ts : List Teacher) (tid : Nat) (avg : Rat)
    (total : Nat) :
    (findByIdAndUpdateTeacher ts tid avg total).find? (fun t => t.id == tid) =
      (ts.find? (fun t => t.id == tid)).map
        (fun t => { t with averageRating := avg, totalRatings := total }) := by
  induction ts with
  | nil => simp [findByIdAndUpdateTeacher]
  | cons t rest ih =>
    cases hc : (t.id == tid) with
    | true => simp [findByIdAndUpdateTeacher, hc, List.find?_cons]
    | false => simp [findByIdAndUpdateTeacher, hc, List.find?_cons, ih]

theorem pair_filter_upsert (rs : List Rating) (tid uid : Nat) (v : Rat) (nid : Nat)
    (h : (rs.filter (fun r => r.teacher == tid && r.user == uid)).length ≤ 1) :
    ((upsertRating rs tid uid v nid).2.filter
        (fun r => r.teacher == tid && r.user == uid)).map (fun r => r.rating) = [v] := by
  induction rs with
  | nil => simp [upsertRating]
  | cons r rest ih =>
    cases hc : (r.teacher == tid && r.user == uid) with
    | false =>
      have h' : (rest.filter (fun r => r.teacher == tid && r.user == uid)).length ≤ 1 := by
        simpa [List.filter_cons, hc] using h
      simp [upsertRating, hc, List.filter_cons, ih h']
    | true =>
      obtain ⟨ht, hu⟩ : r.teacher = tid ∧ r.user = uid := by simpa using hc
      have h0 : rest.filter (fun r => r.teacher == tid && r.user == uid) = [] := by
        have h2 : ((r :: rest).filter
            (fun r => r.teacher == tid && r.user == uid)).length ≤ 1 := h
        rw [@List.filter_cons_of_pos _ (fun x => x.teacher == tid && x.user == uid)
            r rest hc, List.length_cons] at h2
        exact List.length_eq_zero.mp (by omega)
      simp [upsertRating, hc, ht, hu, h0]

theorem upsert_rating_mem (P : Rat → Prop) (rs : List Rating) (tid uid : Nat) (v : Rat)
    (nid : Nat) (hall : ∀ x ∈ rs, P x.rating) (hv : P v) :
    ∀ r ∈ (upsertRating rs tid uid v nid).2, P r.rating := by
  induction rs with
  | nil =>
    intro r hr
    simp [upsertRating] at hr
    rw [hr]
    exact hv
  | cons x rest ih =>
    intro r hr
    cases hc : (x.teacher == tid && x.user == uid) with
    | true =>
      simp [upsertRating, hc] at hr
      rcases hr with hr | hr
      · rw [hr]; exact hv
      · exact hall r (List.mem_cons_of_mem _ hr)
    | false =>
      simp [upsertRating, hc] at hr
      rcases hr with hr | hr
      · rw [hr]; exact hall x (List.mem_cons_self _ _)
      · exact ih (fun y hy => hall y (List.mem_cons_of_mem _ hy)) r hr

theorem find?_saveUser (us : List User) (uid : Nat) (u u' : User)
    (hfind : us.find? (fun x => x.id == uid) = some u) (hid : u'.id = uid) :
    (saveUser us uid u').find? (fun x => x.id == uid) = some u' := by
  induction us with
  | nil => simp [List.find?] at hfind
  | cons x rest ih =>
    cases hc : (x.id == uid) with
    | true => simp [saveUser, hc, List.find?_cons, hid]
    | false =>
      have hfind' : rest.find? (fun x => x.id == uid) = some u := by
        simpa [List.find?_cons, hc] using hfind
      simp [saveUser, hc, List.find?_cons, ih hfind']

theorem getTeachers_state (db : DB) (uid : Nat) : (getTeachers db uid).2 = db := by
  rcases h : db.users.find? (fun u => u.id == uid) with _ | user
  · simp [getTeachers, h]
  · cases hs : user.isSetup
    · simp [getTeachers, h, hs]
    · simp [getTeachers, h, hs]

theorem getTeacherById_state (db : DB) (tid : Nat) : (getTeacherById db tid).2 = db := by
  rcases h : db.teachers.find? (fun t => t.id == tid) with _ | teacher
  · simp [getTeacherById, h]
  · simp [getTeacherById, h]

theorem postReview_teachers (db : DB) (uid tid : Nat) (text : String) (now : Nat) :
    (postReview db uid tid text now).2.teachers = db.teachers := by
  rcases h : db.users.find? (fun u => u.id == uid) with _ | user
  · simp [postReview, h]
  · rcases h2 : db.reviews.find? (fun r => r.teacher == tid && r.user == uid) with _ | r
    · simp [postReview, h, h2]
    · simp [postReview, h, h2]

theorem putReview_teachers (db : DB) (uid rid : Nat) (text : String) (now : Nat) :
    (putReview db uid rid text now).2.teachers = db.teachers := by
  rcases h : db.reviews.find? (fun r => r.id == rid && r.user == uid) with _ | r0
  · simp [putReview, h]
  · simp [putReview, h]

theorem postSetup_teachers (db : DB) (uid sid cid : Nat) :
    (postSetup db uid sid cid).2.teachers = db.teachers := by
  rcases h : db.users.find? (fun u => u.id == uid) with _ | user
  · simp [postSetup, h]
  · cases hs : user.isSetup
    · simp [postSetup, h, hs]
    · simp [postSetup, h, hs]

/-! # Claim theorems -/

/-- C1: a successful POST /api/teachers/:teacherId/ratings responds 200 and
leaves the teacher's `averageRating` equal to the exact arithmetic mean of
all stored rating values for that teacher and `totalRatings` equal to their
count; in particular the submitted values [5, 3, 4] yield averageRating 4
and totalRatings 3, with no rounding. -/
theorem postRating_recomputes_exact_mean (db : DB) (uid tid : Nat) (v : Rat)
    (hv : ratingValid v)
    (hex : (db.teachers.find? (fun t => t.id == tid)).isSome = true) :
    (∃ r, (postRating db uid tid v).1 = .ok r) ∧
    (∃ t, (postRating db uid tid v).2.teachers.find? (fun t => t.id == tid) = some t ∧
      t.averageRating = exactMean (teacherRatingValues (postRating db uid tid v).2 tid) ∧
      t.totalRatings = (teacherRatingValues (postRating db uid tid v).2 tid).length) ∧
    (ratedDb.teachers.find? (fun t => t.id == 10)).map
        (fun t => (t.averageRating, t.totalRatings)) = some ((4 : Rat), 3) := by
  obtain ⟨t0, ht0⟩ := Option.isSome_iff_exists.mp hex
  refine ⟨⟨(upsertRating db.ratings tid uid v db.nextId).1, by simp [postRating, hv]⟩, ?_, ?_⟩
  · simp only [postRating, if_pos hv]
    rw [find?_findByIdAndUpdateTeacher, ht0, Option.map_some']
    refine ⟨_, rfl, ?_, ?_⟩
    · simp [exactMean, teacherRatingValues, foldl_add_eq, List.length_map]
    · simp [teacherRatingValues, List.length_map]
  · norm_num [ratedDb, baseDb, postRating, ratingValid, upsertRating,
      findByIdAndUpdateTeacher, teacherRatingValues, List.find?, List.filter]

/-- C10: for a schema-valid rating value the handler succeeds, and the
divisor of the average recompute — the number of ratings found for the
teacher after the upsert — is at least 1, so the division-by-zero branch is
unreachable on the success path. -/
theorem postRating_divisor_positive (db : DB) (uid tid : Nat) (v : Rat)
    (hv : ratingValid v) :
    (∃ r, (postRating db uid tid v).1 = .ok r) ∧
    0 < ((postRating db uid tid v).2.ratings.filter (fun r => r.teacher == tid)).length := by
  have hs := upsertRating_saved db.ratings tid uid v db.nextId
  refine ⟨⟨(upsertRating db.ratings tid uid v db.nextId).1, by simp [postRating, hv]⟩, ?_⟩
  simp only [postRating, if_pos hv]
  have hmem : (upsertRating db.ratings tid uid v db.nextId).1 ∈
      (upsertRating db.ratings tid uid v db.nextId).2.filter
        (fun r => r.teacher == tid) := by
    rw [List.mem_filter]
    exact ⟨hs.1, by simp [hs.2.1]⟩
  exact List.length_pos.mpr (List.ne_nil_of_mem hmem)

theorem postRating_pair_map (db : DB) (uid tid : Nat) (v : Rat) (hv : ratingValid v)
    (h : (pairRatings db tid uid).length ≤ 1) :
    (pairRatings (postRating db uid tid v).2 tid uid).map (fun r => r.rating) = [v] := by
  simp only [postRating, if_pos hv, pairRatings]
  exact pair_filter_upsert db.ratings tid uid v db.nextId (by simpa [pairRatings] using h)

/-- C3: starting from a store holding at most one rating for the
(teacher, user) pair, submitting value v1 and then value v2 leaves exactly
one stored rating for the pair, and its value is v2. -/
theorem postRating_upsert_semantics (db : DB) (uid tid : Nat) (v1 v2 : Rat)
    (hv1 : ratingValid v1) (hv2 : ratingValid v2)
    (hinv : (pairRatings db tid uid).length ≤ 1) :
    (pairRatings (postRating (postRating db uid tid v1).2 uid tid v2).2 tid uid).map
        (fun r => r.rating) = [v2] := by
  have h1 := postRating_pair_map db uid tid v1 hv1 hinv
  have hlen : (pairRatings (postRating db uid tid v1).2 tid uid).length ≤ 1 := by
    have h2 := congrArg List.length h1
    simp only [List.length_map, List.length_cons, List.length_nil] at h2
    omega
  exact postRating_pair_map (postRating db uid tid v1).2 uid tid v2 hv2 hlen

/-- C7 counterexample: the schema bound `min: 1, max: 5` does not require
an integer — submitting the non-integer value 7/2 succeeds and stores it,
contradicting the claim that non-integer values are rejected. -/
theorem postRating_accepts_noninteger :
    sevenHalves.den ≠ 1 ∧
    (postRating baseDb 1 10 sevenHalves).1 = .ok ⟨100, 10, 1, sevenHalves⟩ ∧
    (postRating baseDb 1 10 sevenHalves).2.ratings = [⟨100, 10, 1, sevenHalves⟩] := by
  refine ⟨by decide, by decide, by decide⟩

/-- C7 amended: a stored rating value always lies in the range [1, 5]
(not necessarily an integer): the range is preserved by every rating
submission, and a value outside [1, 5] fails with a 400 error, stores no
rating, and leaves the whole store — teacher aggregates included —
unchanged. -/
theorem rating_range_invariant (db : DB) (uid tid : Nat) (v : Rat)
    (hall : ∀ r ∈ db.ratings, 1 ≤ r.rating ∧ r.rating ≤ 5) :
    (∀ r ∈ (postRating db uid tid v).2.ratings, 1 ≤ r.rating ∧ r.rating ≤ 5) ∧
    (¬ ratingValid v →
      postRating db uid tid v = (.err 400 "Rating validation failed", db)) := by
  constructor
  · intro r hr
    by_cases hv : ratingValid v
    · simp only [postRating, if_pos hv] at hr
      exact upsert_rating_mem (fun q => 1 ≤ q ∧ q ≤ 5) db.ratings tid uid v db.nextId
        hall hv r hr
    · simp only [postRating, if_neg hv] at hr
      exact hall r hr
  · intro hv
    simp [postRating, hv]

/-- C2: at most one review per (teacher, user) pair is maintained by the
handlers: POST of a review fails with a 400 error and leaves the store
unchanged when the caller already has a review for the teacher, and PUT of
a review the caller does not own fails with 404 and leaves the store
unchanged. -/
theorem review_per_pair_unique (db : DB) (uid tid rid : Nat) (text : String) (now : Nat) :
    ((∃ u ∈ db.users, u.id = uid) → (∃ r ∈ db.reviews, r.teacher = tid ∧ r.user = uid) →
      postReview db uid tid text now =
        (.err 400 "You have already reviewed this teacher", db)) ∧
    ((∀ r ∈ db.reviews, ¬(r.id = rid ∧ r.user = uid)) →
      putReview db uid rid text now = (.err 404 "Review not found", db)) := by
  constructor
  · rintro ⟨u, hu, hid⟩ ⟨r, hr, hrt, hru⟩
    have h1 : (db.users.find? (fun u => u.id == uid)).isSome := by
      rw [List.find?_isSome]
      exact ⟨u, hu, by simp [hid]⟩
    obtain ⟨u', hu'⟩ := Option.isSome_iff_exists.mp h1
    have h2 : (db.reviews.find? (fun r => r.teacher == tid && r.user == uid)).isSome := by
      rw [List.find?_isSome]
      exact ⟨r, hr, by simp [hrt, hru]⟩
    obtain ⟨r', hr'⟩ := Option.isSome_iff_exists.mp h2
    simp [postReview, hu', hr']
  · intro hno
    have h3 : db.reviews.find? (fun r => r.id == rid && r.user == uid) = none := by
      rw [List.find?_eq_none]
      intro x hx
      simpa using hno x hx
    simp [putReview, h3]

/-- C4: setup succeeds exactly once per user — on a user whose `isSetup`
flag is false it succeeds, stores the school and class references, and
sets the flag, after which every further setup attempt fails with the 400
business error and leaves the store unchanged; on a user already set up it
fails the same way with the whole store unchanged. -/
theorem setup_succeeds_exactly_once (db : DB) (uid sid cid : Nat) (u : User)
    (hu : db.users.find? (fun x => x.id == uid) = some u) :
    (u.isSetup = false →
      ∃ db', postSetup db uid sid cid = (.ok "Setup completed successfully", db') ∧
        db'.users.find? (fun x => x.id == uid) =
          some { u with school := some sid, «class» := some cid, isSetup := true } ∧
        ∀ sid2 cid2, postSetup db' uid sid2 cid2 =
          (.err 400 "Setup already completed", db')) ∧
    (u.isSetup = true →
      postSetup db uid sid cid = (.err 400 "Setup already completed", db)) := by
  have hid : u.id = uid := by simpa using List.find?_some hu
  constructor
  · intro hns
    have hpost : postSetup db uid sid cid =
        (.ok "Setup completed successfully",
          { db with users := (saveUser db.users uid
              { u with school := some sid, «class» := some cid, isSetup := true }) }) := by
      simp [postSetup, hu, hns]
    have hsaved : (saveUser db.users uid
        ({ u with school := some sid, «class» := some cid, isSetup := true })).find?
          (fun x => x.id == uid) =
        some ({ u with school := some sid, «class» := some cid, isSetup := true }) :=
      find?_saveUser db.users uid u _ hu hid
    refine ⟨_, hpost, hsaved, ?_⟩
    intro sid2 cid2
    simp [postSetup, hsaved]
  · intro hs
    simp [postSetup, hu, hs]

/-- C5 counterexample: with `anonymousReviews` switched on, the my-review
response and the POST-review response still carry the stored username, not
the literal "Anonymous": the claim that every outgoing response is
anonymized is false. -/
theorem myReview_not_anonymized :
    anonDb.config.anonymousReviews = true ∧
    (getMyReview anonDb 1 10).1 = .ok (some ⟨50, 10, 1, "alice", "great teacher", 7, 7⟩) ∧
    (postReview anonDb 2 10 "nice" 8).1 = .ok ⟨100, 10, 2, "bob", "nice", 8, 8⟩ ∧
    "alice" ≠ "Anonymous" ∧ "bob" ≠ "Anonymous" := by
  refine ⟨rfl, by decide, by decide, by decide, by decide⟩

/-- C5 amended: when `anonymousReviews` is true the reviews-listing
response replaces every username with the literal "Anonymous" and the
stored reviews are not mutated, but the my-review route returns the stored
document unmodified (the POST response likewise carries the stored
username, see the counterexample). -/
theorem anonymization_applies_to_listing (db : DB) (uid tid : Nat)
    (h : db.config.anonymousReviews = true) :
    (∀ out, (getReviews db tid).1 = .ok out → ∀ r ∈ out, r.username = "Anonymous") ∧
    (getReviews db tid).2 = db ∧
    (getMyReview db uid tid).1 =
      .ok (db.reviews.find? (fun r => r.teacher == tid && r.user == uid)) ∧
    (getMyReview db uid tid).2 = db := by
  refine ⟨?_, rfl, rfl, rfl⟩
  intro out hout r hr
  simp only [getReviews, h, if_true] at hout
  injection hout with hout
  subst hout
  obtain ⟨r0, _, hr0⟩ := List.mem_map.mp hr
  rw [← hr0]

/-- C6: after switching `hideTeacherImages` on through the admin config
route, the stored teacher documents are unchanged, and every subsequent
teacher read — the class listing and the single-teacher route — serves an
empty `imageUrl` while leaving the store untouched; the flag is read from
the current config on each request. -/
theorem hideImages_redacts_fresh (db : DB) (uid tid : Nat) :
    ((putAdminConfig db none (some true)).2.teachers = db.teachers) ∧
    ((putAdminConfig db none (some true)).2.config.hideTeacherImages = true) ∧
    (∀ out, (getTeachers (putAdminConfig db none (some true)).2 uid).1 = .ok out →
      ∀ t ∈ out, t.imageUrl = "") ∧
    (∀ t, (getTeacherById (putAdminConfig db none (some true)).2 tid).1 = .ok t →
      t.imageUrl = "") ∧
    (getTeachers (putAdminConfig db none (some true)).2 uid).2 =
      (putAdminConfig db none (some true)).2 ∧
    (getTeacherById (putAdminConfig db none (some true)).2 tid).2 =
      (putAdminConfig db none (some true)).2 := by
  refine ⟨rfl, rfl, ?_, ?_, getTeachers_state _ _, getTeacherById_state _ _⟩
  · intro out hout t ht
    rcases h : (putAdminConfig db none (some true)).2.users.find? (fun u => u.id == uid)
      with _ | user
    · simp [getTeachers, h] at hout
    · cases hs : user.isSetup
      · simp [getTeachers, h, hs] at hout
      · simp only [getTeachers, h, hs, Bool.not_true, Bool.false_eq_true, if_false] at hout
        injection hout with hout
        subst hout
        obtain ⟨t0, _, ht0⟩ := List.mem_map.mp ht
        rw [← ht0]
  · intro t hout
    have hcfg : (putAdminConfig db none (some true)).2.config.hideTeacherImages = true := rfl
    rcases h : (putAdminConfig db none (some true)).2.teachers.find? (fun x => x.id == tid)
      with _ | teacher
    · simp [getTeacherById, h] at hout
    · simp only [getTeacherById, h, hcfg, if_true] at hout
      injection hout with hout
      rw [← hout]

/-- C8: deleting a school removes the school document, every class
referencing it, and every teacher referencing it, while all other schools,
classes, and teachers survive and the stored reviews and ratings are left
exactly as they were. -/
theorem deleteSchool_cascade (db : DB) (sid : Nat) :
    (∀ s, s ∈ (deleteSchool db sid).2.schools ↔ s ∈ db.schools ∧ s.id ≠ sid) ∧
    (∀ c, c ∈ (deleteSchool db sid).2.classes ↔ c ∈ db.classes ∧ c.school ≠ sid) ∧
    (∀ t, t ∈ (deleteSchool db sid).2.teachers ↔ t ∈ db.teachers ∧ t.school ≠ sid) ∧
    (deleteSchool db sid).2.reviews = db.reviews ∧
    (deleteSchool db sid).2.ratings = db.ratings := by
  refine ⟨?_, ?_, ?_, rfl, rfl⟩ <;> intro x <;>
    simp [deleteSchool, List.mem_filter, bne_iff_ne]

/-- C9: the cascading deletes never rewrite teacher aggregates — deleting
a user removes that user's ratings but leaves every teacher document
(aggregates included) untouched, and deleting a school leaves the stored
ratings untouched; the other embedded write handlers apart from the rating
route also never touch teacher documents.  Concretely, after users 1 and 2
rate teacher 10 with 5 and 3 and user 2 is then deleted, the teacher still
stores averageRating 4 and totalRatings 2 while the surviving ratings have
exact mean 5 and count 1. -/
theorem cascade_deletes_leave_aggregates_stale :
    (∀ db uid, (deleteUser db uid).2.teachers = db.teachers) ∧
    (∀ db sid, (deleteSchool db sid).2.ratings = db.ratings) ∧
    (∀ db uid tid text now, (postReview db uid tid text now).2.teachers = db.teachers) ∧
    (∀ db uid rid text now, (putReview db uid rid text now).2.teachers = db.teachers) ∧
    (∀ db uid sid cid, (postSetup db uid sid cid).2.teachers = db.teachers) ∧
    (∀ db a h, (putAdminConfig db a h).2.teachers = db.teachers) ∧
    ((deleteUser ratedDb2 2).2.teachers.find? (fun t => t.id == 10)).map
        (fun t => (t.averageRating, t.totalRatings)) = some ((4 : Rat), 2) ∧
    exactMean (teacherRatingValues (deleteUser ratedDb2 2).2 10) = 5 ∧
    (teacherRatingValues (deleteUser ratedDb2 2).2 10).length = 1 ∧
    (4 : Rat) ≠ 5 ∧ (2 : Nat) ≠ 1 := by
  refine ⟨fun db uid => rfl, fun db sid => rfl,
    fun db uid tid text now => postReview_teachers db uid tid text now,
    fun db uid rid text now => putReview_teachers db uid rid text now,
    fun db uid sid cid => postSetup_teachers db uid sid cid,
    fun db a h => rfl, ?_, ?_, ?_, by norm_num, by norm_num⟩
  · norm_num [ratedDb2, baseDb, postRating, ratingValid, upsertRating,
      findByIdAndUpdateTeacher, deleteUser, List.find?, List.filter]
  · norm_num [ratedDb2, baseDb, postRating, ratingValid, upsertRating,
      findByIdAndUpdateTeacher, deleteUser, exactMean, teacherRatingValues,
      List.find?, List.filter]
  · norm_num [ratedDb2, baseDb, postRating, ratingValid, upsertRating,
      findByIdAndUpdateTeacher, deleteUser, teacherRatingValues,
      List.find?, List.filter]

/-! # Witnesses -/

theorem review_per_pair_unique_witness :
    postReview anonDb 1 10 "again" 9 =
      (.err 400 "You have already reviewed this teacher", anonDb) ∧
    putReview anonDb 2 50 "hijack" 9 = (.err 404 "Review not found", anonDb) :=
  ⟨(review_per_pair_unique anonDb 1 10 50 "again" 9).1 (by decide) (by decide),
   (review_per_pair_unique anonDb 2 10 50 "hijack" 9).2 (by decide)⟩

theorem setup_succeeds_exactly_once_witness :
    ∃ db', postSetup freshUserDb 4 20 21 = (.ok "Setup completed successfully", db') ∧
      db'.users.find? (fun x => x.id == 4) =
        some ⟨4, "dave", "h4", some 20, some 21, true⟩ ∧
      ∀ sid2 cid2, postSetup db' 4 sid2 cid2 = (.err 400 "Setup already completed", db') :=
  (setup_succeeds_exactly_once freshUserDb 4 20 21 ⟨4, "dave", "h4", none, none, false⟩
    (by decide)).1 rfl

theorem anonymization_applies_to_listing_witness :
    (∀ out, (getReviews anonDb 10).1 = .ok out → ∀ r ∈ out, r.username = "Anonymous") ∧
    (getReviews anonDb 10).2 = anonDb ∧
    (getMyReview anonDb 2 10).1 =
      .ok (anonDb.reviews.find? (fun r => r.teacher == 10 && r.user == 2)) ∧
    (getMyReview anonDb 2 10).2 = anonDb :=
  anonymization_applies_to_listing anonDb 2 10 (by decide)

theorem hideImages_redacts_fresh_witness :
    ((putAdminConfig baseDb none (some true)).2.teachers = baseDb.teachers) ∧
    ((putAdminConfig baseDb none (some true)).2.config.hideTeacherImages = true) ∧
    (∀ out, (getTeachers (putAdminConfig baseDb none (some true)).2 1).1 = .ok out →
      ∀ t ∈ out, t.imageUrl = "") ∧
    (∀ t, (getTeacherById (putAdminConfig baseDb none (some true)).2 10).1 = .ok t →
      t.imageUrl = "") ∧
    (getTeachers (putAdminConfig baseDb none (some true)).2 1).2 =
      (putAdminConfig baseDb none (some true)).2 ∧
    (getTeacherById (putAdminConfig baseDb none (some true)).2 10).2 =
      (putAdminConfig baseDb none (some true)).2 :=
  hideImages_redacts_fresh baseDb 1 10

theorem postRating_recomputes_exact_mean_witness :
    (∃ r, (postRating baseDb 1 10 5).1 = .ok r) ∧
    (∃ t, (postRating baseDb 1 10 5).2.teachers.find? (fun t => t.id == 10) = some t ∧
      t.averageRating = exactMean (teacherRatingValues (postRating baseDb 1 10 5).2 10) ∧
      t.totalRatings = (teacherRatingValues (postRating baseDb 1 10 5).2 10).length) ∧
    (ratedDb.teachers.find? (fun t => t.id == 10)).map
        (fun t => (t.averageRating, t.totalRatings)) = some ((4 : Rat), 3) :=
  postRating_recomputes_exact_mean baseDb 1 10 5 (by decide) (by decide)

theorem postRating_divisor_positive_witness :
    (∃ r, (postRating baseDb 2 10 3).1 = .ok r) ∧
    0 < ((postRating baseDb 2 10 3).2.ratings.filter (fun r => r.teacher == 10)).length :=
  postRating_divisor_positive baseDb 2 10 3 (by decide)

theorem postRating_upsert_semantics_witness :
    (pairRatings (postRating (postRating baseDb 1 10 5).2 1 10 2).2 10 1).map
        (fun r => r.rating) = [(2 : Rat)] :=
  postRating_upsert_semantics baseDb 1 10 5 2 (by decide) (by decide) (by decide)

theorem rating_range_invariant_witness :
    (∀ r ∈ (postRating baseDb 1 10 7).2.ratings, 1 ≤ r.rating ∧ r.rating ≤ 5) ∧
    (¬ ratingValid 7 →
      postRating baseDb 1 10 7 = (.err 400 "Rating validation failed", baseDb)) :=
  rating_range_invariant baseDb 1 10 7 (by decide)

end Server
